import Mathlib

/-!
Shallow embedding of the NETWORK-FAILOVER-AUTOMATION core:
`src/router/interfaces.py` (InterfaceManager), `src/router/mikrotik.py`
(MikrotikClient.check_interface_connectivity), and
`src/monitoring/collector.py` (NetworkMonitor.process_metrics /
collect_metrics history retention), together with the configuration in
`config/router_config.py`.

Python floats appearing in this code are either finite values or the
positive infinity produced by `float('inf')`; they are modelled by
`PFloat` below, with the absorbing addition and division that IEEE
arithmetic gives for the operations actually performed (no NaN can
arise on these paths).  Wall-clock times are rationals.  The RouterLink
device is modelled as an environment: its `update_routing_priority`
results are a function parameter, its ping replies are explicit data.
-/

namespace NetworkFailover

/-- A Python float value on the paths modelled here: plus infinity
(`float('inf')`) or a finite rational. -/
inductive PFloat where
  | inf : PFloat
  | val : ℚ → PFloat
deriving DecidableEq, Repr

/-- Addition of two such floats; infinity absorbs, as in IEEE arithmetic
for `inf + finite` and `finite + inf`. -/
def pfAdd : PFloat → PFloat → PFloat
  | PFloat.inf, _ => PFloat.inf
  | PFloat.val _, PFloat.inf => PFloat.inf
  | PFloat.val a, PFloat.val b => PFloat.val (a + b)

/-- Python `sum(xs)`: a left fold of `+` starting from `0`. -/
def pfSum (l : List PFloat) : PFloat :=
  l.foldl pfAdd (PFloat.val 0)

/-- Division of such a float by a (positive, at every call site) count:
`inf / n = inf`, `a / n = a / n`. -/
def pfDivNat : PFloat → ℕ → PFloat
  | PFloat.inf, _ => PFloat.inf
  | PFloat.val a, n => PFloat.val (a / n)

/-- Comparison `x < q` of such a float against a finite threshold:
`inf < q` is false. -/
def pfLtQ : PFloat → ℚ → Bool
  | PFloat.inf, _ => false
  | PFloat.val a, q => decide (a < q)

/-- The metrics dictionary built by
`InterfaceManager.get_interface_metrics`: interface name, `'up'`/`'down'`
status, aggregate latency (possibly infinite), aggregate packet loss
percentage, and collection timestamp. -/
structure InterfaceMetrics where
  iface : String
  status : String
  latency : PFloat
  packet_loss : ℚ
  timestamp : ℚ
deriving DecidableEq, Repr

/-- The `THRESHOLDS` configuration dictionary of
`config/router_config.py`. -/
structure Thresholds where
  latency_max : ℚ
  packet_loss_max : ℚ
  check_interval : ℚ
  failover_timeout : ℚ
  consecutive_failures : ℕ
deriving DecidableEq, Repr

/-- The concrete `THRESHOLDS` values from `config/router_config.py`. -/
def THRESHOLDS : Thresholds :=
  { latency_max := 100
    packet_loss_max := 5
    check_interval := 30
    failover_timeout := 60
    consecutive_failures := 3 }

/-- Constant `INTERFACES['primary']` from `config/router_config.py`. -/
def INTERFACES_primary : String := "ether1"

/-- Constant `INTERFACES['secondary']` from `config/router_config.py`. -/
def INTERFACES_secondary : String := "ether2"

/-- Predicate `InterfaceManager.is_interface_healthy`: false when the metrics
dictionary is absent (or empty, both falsy in Python) or its status is
`'down'`; otherwise both thresholds must hold strictly. -/
def is_interface_healthy (th : Thresholds) (metrics : Option InterfaceMetrics) : Bool :=
  match metrics with
  | none => false
  | some m =>
    if m.status = "down" then false
    else pfLtQ m.latency th.latency_max && decide (m.packet_loss < th.packet_loss_max)

/-- The statistics dictionary returned by
`MikrotikClient.check_interface_connectivity` on its success path. -/
structure PingStats where
  sent : ℕ
  received : ℕ
  packet_loss : ℚ
  avg_latency : PFloat
deriving DecidableEq, Repr

/-- Function `MikrotikClient.check_interface_connectivity` success path, from the
raw ping replies: each reply either carries a round-trip `time` field
(`some t`) or not (`none`).  `received` counts replies with a time,
`packet_loss = (sent - received) / sent * 100`, and the average latency
is the mean of the reply times, `float('inf')` when no reply carried a
time. -/
def check_interface_connectivity (count : ℕ) (replies : List (Option ℚ)) : PingStats :=
  let times := replies.filterMap id
  let received := times.length
  let packet_loss : ℚ := if 0 < count then (((count : ℚ) - received) / count) * 100 else 0
  let avg_time := if times.length ≠ 0 then PFloat.val (times.sum / times.length) else PFloat.inf
  { sent := count
    received := received
    packet_loss := packet_loss
    avg_latency := avg_time }

/-- The metrics dictionary synthesized by
`InterfaceManager.get_interface_metrics` for a down interface. -/
def down_metrics (iface : String) (now : ℚ) : InterfaceMetrics :=
  { iface := iface
    status := "down"
    latency := PFloat.inf
    packet_loss := 100
    timestamp := now }

/-- Function `InterfaceManager.get_interface_metrics`.  `statusRunning` is the
`'running'` field of the router's interface status (`none` when the
interface is not found, the dictionary is falsy, or the field is
absent).  `pingReplies` holds, per configured ping target, `none` when
`check_interface_connectivity` failed (returned `None`) and otherwise
the raw replies of that target's ping test.  A target whose call
returned a result contributes its per-target statistics; only failed
calls are skipped by the `if ping_result:` guard. -/
def get_interface_metrics (iface : String) (now : ℚ) (statusRunning : Option String)
    (pingReplies : List (Option (List (Option ℚ)))) : InterfaceMetrics :=
  if statusRunning ≠ some "true" then down_metrics iface now
  else
    let pingResults := pingReplies.filterMap (Option.map (check_interface_connectivity 5))
    let latencies := pingResults.map (fun r => r.avg_latency)
    let packet_losses := pingResults.map (fun r => r.packet_loss)
    let avg_latency :=
      if latencies.length ≠ 0 then pfDivNat (pfSum latencies) latencies.length
      else PFloat.inf
    let avg_packet_loss : ℚ :=
      if packet_losses.length ≠ 0 then packet_losses.sum / packet_losses.length
      else 100
    { iface := iface
      status := "up"
      latency := avg_latency
      packet_loss := avg_packet_loss
      timestamp := now }

/-- The mutable state of `InterfaceManager` relevant to failover:
interface names fixed at construction, the currently active interface,
and the timestamp of the last successful failover. -/
structure FailoverState where
  primary_interface : String
  secondary_interface : String
  current_active : String
  failover_timestamp : Option ℚ
deriving DecidableEq, Repr

/-- One `update_routing_priority(interface, new_distance)` call issued
to the router. -/
structure UpdCall where
  iface : String
  distance : ℤ
deriving DecidableEq, Repr

/-- A failover event record `{timestamp, from_interface, to_interface,
reason}` as laid out by the `failover_events` table of
`src/monitoring/presistence.py`. -/
structure FailoverEvent where
  timestamp : ℚ
  from_interface : String
  to_interface : String
  reason : String
deriving DecidableEq, Repr

/-- Function `InterfaceManager.perform_failover`.  `upd` gives the boolean result
of `update_routing_priority` for each interface/distance pair.  The old
interface is demoted to distance 10 first with the result discarded;
the switch succeeds exactly when raising the target to distance 1
succeeds, and only then are `current_active` and `failover_timestamp`
written.  The returned list records the priority-update calls issued,
in order.  No failover event is stored: neither `perform_failover` nor
its caller invokes the persistence layer for events. -/
def perform_failover (upd : String → ℤ → Bool) (now : ℚ) (st : FailoverState)
    (from_i to_i : String) : Bool × FailoverState × List UpdCall :=
  let _demote := upd from_i 10
  let success := upd to_i 1
  let calls : List UpdCall := [{ iface := from_i, distance := 10 }, { iface := to_i, distance := 1 }]
  if success then
    (true, { st with current_active := to_i, failover_timestamp := some now }, calls)
  else
    (false, st, calls)

/-- Python truthiness of `self.failover_timestamp`: `None` and `0.0` are
falsy. -/
def tsTruthy : Option ℚ → Bool
  | none => false
  | some q => decide (q ≠ 0)

/-- Function `InterfaceManager.evaluate_failover_need`.  Returns
`(need_failover, target_interface)` plus a flag recording whether the
"both interfaces down" warning was logged. -/
def evaluate_failover_need (th : Thresholds) (now : ℚ) (st : FailoverState)
    (metrics : String → Option InterfaceMetrics) : Bool × String × Bool :=
  let primary_metrics := metrics st.primary_interface
  let secondary_metrics := metrics st.secondary_interface
  let primary_healthy := is_interface_healthy th primary_metrics
  let secondary_healthy := is_interface_healthy th secondary_metrics
  let current_interface := st.current_active
  let current_metrics := metrics current_interface
  let current_healthy := is_interface_healthy th current_metrics
  if current_healthy then
    if current_interface = st.secondary_interface ∧ primary_healthy = true ∧
        tsTruthy st.failover_timestamp = true then
      let time_since_failover := now - (st.failover_timestamp.getD 0)
      if time_since_failover > th.failover_timeout then
        (true, st.primary_interface, false)
      else
        (false, current_interface, false)
    else
      (false, current_interface, false)
  else
    if current_interface = st.primary_interface ∧ secondary_healthy = true then
      (true, st.secondary_interface, false)
    else if current_interface = st.secondary_interface ∧ primary_healthy = true then
      (true, st.primary_interface, false)
    else if primary_healthy = false ∧ secondary_healthy = false then
      (false, current_interface, true)
    else
      (false, current_interface, false)

/-- Point update of the `consecutive_failures` dictionary
(`none` = key absent). -/
def setCF (cf : String → Option ℕ) (k : String) (v : ℕ) : String → Option ℕ :=
  fun s => if s = k then some v else cf s

/-- The counter-tracking loop at the top of
`NetworkMonitor.process_metrics`: iterate the metrics dictionary in
insertion order; an absent key is first inserted as 0; an unhealthy
interface increments its counter, a healthy one resets it to 0. -/
def update_failure_counters (th : Thresholds) (cf : String → Option ℕ)
    (metrics : List (String × InterfaceMetrics)) : String → Option ℕ :=
  metrics.foldl
    (fun acc p =>
      let healthy := is_interface_healthy th (some p.2)
      setCF acc p.1 (if healthy then 0 else (acc p.1).getD 0 + 1))
    cf

/-- Dictionary lookup `metrics.get(key)` on the insertion-ordered
metrics dictionary. -/
def mLookup (metrics : List (String × InterfaceMetrics)) (k : String) : Option InterfaceMetrics :=
  (metrics.find? (fun p => p.1 == k)).map (fun p => p.2)

/-- The observable outcome of one `NetworkMonitor.process_metrics`
round: the updated failure counters, the updated `InterfaceManager`
state, whether `evaluate_failover_need` was invoked, whether
`perform_failover` was invoked and whether it succeeded, the
priority-update calls issued, whether the "both down" warning fired,
and the failover events written to persistence during the round (the
source writes none: no call to the events table exists in
`process_metrics` or `perform_failover`). -/
structure RoundResult where
  cf : String → Option ℕ
  ifState : FailoverState
  evaluated : Bool
  attempted : Bool
  switched : Bool
  calls : List UpdCall
  warnedBothDown : Bool
  sinkEvents : List FailoverEvent

/-- Function `NetworkMonitor.process_metrics`: update the per-interface
consecutive-failure counters, then, only when the current active
interface has a tracked counter at or above the
`consecutive_failures` threshold, evaluate failover need and, when a
switch to a different interface is suggested, perform it and reset the
old active interface's counter to 0 (unconditionally, whatever
`perform_failover` returned). -/
def process_metrics (th : Thresholds) (upd : String → ℤ → Bool) (now : ℚ)
    (cf : String → Option ℕ) (st : FailoverState)
    (metrics : List (String × InterfaceMetrics)) : RoundResult :=
  let cf1 := update_failure_counters th cf metrics
  let current_active := st.current_active
  let gate :=
    match cf1 current_active with
    | none => false
    | some v => decide (th.consecutive_failures ≤ v)
  if gate then
    let r := evaluate_failover_need th now st (mLookup metrics)
    if r.1 = true ∧ r.2.1 ≠ current_active then
      let pf := perform_failover upd now st current_active r.2.1
      { cf := setCF cf1 current_active 0
        ifState := pf.2.1
        evaluated := true
        attempted := true
        switched := pf.1
        calls := pf.2.2
        warnedBothDown := r.2.2
        sinkEvents := [] }
    else
      { cf := cf1, ifState := st, evaluated := true, attempted := false, switched := false,
        calls := [], warnedBothDown := r.2.2, sinkEvents := [] }
  else
    { cf := cf1, ifState := st, evaluated := false, attempted := false, switched := false,
      calls := [], warnedBothDown := false, sinkEvents := [] }

/-- The history-retention step of `NetworkMonitor.collect_metrics` for
one interface: append the new entry, then, when the list exceeds 1000
entries, keep only the last 1000 (`history[-1000:]`). -/
def historyAppend (h : List InterfaceMetrics) (m : InterfaceMetrics) : List InterfaceMetrics :=
  let h2 := h ++ [m]
  if 1000 < h2.length then h2.drop (h2.length - 1000) else h2

/-- Iterated `process_metrics` rounds of the monitoring loop: each
round is given a wall-clock time and the metrics dictionary collected
at that tick; counters and `InterfaceManager` state thread through.
Returns the final counters and state, plus each round's outcome in
order. -/
def runRounds (th : Thresholds) (upd : String → ℤ → Bool) (cf : String → Option ℕ)
    (st : FailoverState) (rounds : List (ℚ × List (String × InterfaceMetrics))) :
    (String → Option ℕ) × FailoverState × List RoundResult :=
  match rounds with
  | [] => (cf, st, [])
  | (now, metrics) :: rest =>
    let r := process_metrics th upd now cf st metrics
    let out := runRounds th upd r.cf r.ifState rest
    (out.1, out.2.1, r :: out.2.2)

/-- The metrics dictionary shape produced by
`InterfaceManager.check_interfaces`: the primary interface's entry is
inserted first, the secondary's second. -/
def roundMetrics (st : FailoverState) (pr : InterfaceMetrics × InterfaceMetrics) :
    List (String × InterfaceMetrics) :=
  [(st.primary_interface, pr.1), (st.secondary_interface, pr.2)]

/-- The metrics entry of the currently active interface within a
primary/secondary pair. -/
def activeOf (st : FailoverState) (pr : InterfaceMetrics × InterfaceMetrics) : InterfaceMetrics :=
  if st.current_active = st.primary_interface then pr.1 else pr.2

/-- Concrete healthy metrics: up, 20 ms latency, 0 % loss — well inside
the configured thresholds. -/
def healthy_metrics (iface : String) (now : ℚ) : InterfaceMetrics :=
  { iface := iface
    status := "up"
    latency := PFloat.val 20
    packet_loss := 0
    timestamp := now }

/-- A RouterLink whose priority updates always succeed. -/
def updTrue : String → ℤ → Bool := fun _ _ => true

/-- A RouterLink whose priority updates always fail. -/
def updFalse : String → ℤ → Bool := fun _ _ => false

/-- Failure counters all tracked at 0. -/
def cfZero : String → Option ℕ := fun _ => some 0

/-- Failure counters with no interface tracked yet. -/
def cfNone : String → Option ℕ := fun _ => none

/-- Failure counters after two consecutive failures of the primary
interface. -/
def cfTwoPrimary : String → Option ℕ := fun s => if s = "ether1" then some 2 else some 0

/-- Scenario state: a failover to the secondary happened at time 1000,
so the secondary is active. -/
def stSwitchback : FailoverState :=
  { primary_interface := "ether1"
    secondary_interface := "ether2"
    current_active := "ether2"
    failover_timestamp := some 1000 }

/-- Scenario state: fresh manager, primary active, no failover yet. -/
def stPrimaryActive : FailoverState :=
  { primary_interface := "ether1"
    secondary_interface := "ether2"
    current_active := "ether1"
    failover_timestamp := none }

/-- Metrics dictionary collected 30 s after the failover of
`stSwitchback`: both interfaces healthy. -/
def mRound30 : List (String × InterfaceMetrics) :=
  roundMetrics stSwitchback (healthy_metrics "ether1" 1030, healthy_metrics "ether2" 1030)

/-- Metrics dictionary collected 61 s after the failover of
`stSwitchback`: both interfaces healthy, past the 60 s timeout. -/
def mRound61 : List (String × InterfaceMetrics) :=
  roundMetrics stSwitchback (healthy_metrics "ether1" 1061, healthy_metrics "ether2" 1061)

/-- Metrics dictionary with the primary down and the secondary
healthy. -/
def mPrimaryDown : List (String × InterfaceMetrics) :=
  roundMetrics stPrimaryActive (down_metrics "ether1" 500, healthy_metrics "ether2" 500)

/-- Three consecutive collection rounds (at the configured 30 s
interval) in which the primary is down and the secondary healthy. -/
def roundsC5 : List (ℚ × (InterfaceMetrics × InterfaceMetrics)) :=
  [(0, (down_metrics "ether1" 0, healthy_metrics "ether2" 0)),
   (30, (down_metrics "ether1" 30, healthy_metrics "ether2" 30)),
   (60, (down_metrics "ether1" 60, healthy_metrics "ether2" 60))]

/-- Metrics dictionary with both interfaces down. -/
def mBothDown : List (String × InterfaceMetrics) :=
  roundMetrics stPrimaryActive (down_metrics "ether1" 700, down_metrics "ether2" 700)

/-- Ping replies of a target answering all five probes in 20 ms. -/
def repliesAll20 : List (Option ℚ) := List.replicate 5 (some 20)

/-- Ping replies of a target answering none of the five probes (the
ping command itself did not raise, so `check_interface_connectivity`
still returns a result dictionary). -/
def repliesNone : List (Option ℚ) := List.replicate 5 none

/-! Helper lemmas shared by several developments below. -/

theorem pfAdd_inf_left (y : PFloat) : pfAdd PFloat.inf y = PFloat.inf := rfl

theorem pfAdd_inf_right (x : PFloat) : pfAdd x PFloat.inf = PFloat.inf := by
  cases x <;> rfl

theorem foldl_pfAdd_inf (l : List PFloat) : l.foldl pfAdd PFloat.inf = PFloat.inf := by
  induction l with
  | nil => rfl
  | cons a t ih => simpa [pfAdd_inf_left] using ih

theorem foldl_pfAdd_mem_inf (l : List PFloat) (x : PFloat) (h : PFloat.inf ∈ l) :
    l.foldl pfAdd x = PFloat.inf := by
  induction l generalizing x with
  | nil => cases h
  | cons a t ih =>
    rcases List.mem_cons.mp h with rfl | hmem
    · simpa [pfAdd_inf_right] using foldl_pfAdd_inf t
    · exact ih (pfAdd x a) hmem

theorem foldl_pfAdd_map_val (a : ℚ) (qs : List ℚ) :
    (qs.map PFloat.val).foldl pfAdd (PFloat.val a) = PFloat.val (a + qs.sum) := by
  induction qs generalizing a with
  | nil => simp
  | cons q t ih =>
    simp only [List.map_cons, List.foldl_cons, pfAdd, List.sum_cons]
    rw [ih (a + q)]
    ring_nf

theorem pfSum_map_val (qs : List ℚ) : pfSum (qs.map PFloat.val) = PFloat.val qs.sum := by
  simpa using foldl_pfAdd_map_val 0 qs

theorem perform_failover_of_fail (upd : String → ℤ → Bool) (now : ℚ) (st : FailoverState)
    (f t : String) (h : upd t 1 = false) :
    perform_failover upd now st f t =
      (false, st, [{ iface := f, distance := 10 }, { iface := t, distance := 1 }]) := by
  simp [perform_failover, h]

theorem perform_failover_of_success (upd : String → ℤ → Bool) (now : ℚ) (st : FailoverState)
    (f t : String) (h : upd t 1 = true) :
    perform_failover upd now st f t =
      (true, { st with current_active := t, failover_timestamp := some now },
        [{ iface := f, distance := 10 }, { iface := t, distance := 1 }]) := by
  simp [perform_failover, h]

/-! Claims. -/

/-- C3: `is_interface_healthy` returns false if the metrics are absent
or the status is down, regardless of latency and packet loss;
otherwise it returns true exactly when the latency is finite and
strictly below `latency_max` and the packet loss is strictly below
`packet_loss_max`, so metrics sitting exactly on either threshold are
unhealthy. -/
theorem claim_C3_health_characterization (th : Thresholds) :
    is_interface_healthy th none = false
    ∧ (∀ m : InterfaceMetrics, m.status = "down" →
        is_interface_healthy th (some m) = false)
    ∧ (∀ m : InterfaceMetrics, m.status ≠ "down" →
        (is_interface_healthy th (some m) = true ↔
          (∃ q : ℚ, m.latency = PFloat.val q ∧ q < th.latency_max)
            ∧ m.packet_loss < th.packet_loss_max))
    ∧ (∀ m : InterfaceMetrics, m.latency = PFloat.val th.latency_max →
        is_interface_healthy th (some m) = false)
    ∧ (∀ m : InterfaceMetrics, m.packet_loss = th.packet_loss_max →
        is_interface_healthy th (some m) = false) := by
  refine ⟨rfl, ?_, ?_, ?_, ?_⟩
  · intro m hm
    simp [is_interface_healthy, hm]
  · intro m hm
    cases hl : m.latency with
    | inf => simp [is_interface_healthy, hm, pfLtQ, hl]
    | val a => simp [is_interface_healthy, hm, pfLtQ, hl]
  · intro m hm
    by_cases hs : m.status = "down"
    · simp [is_interface_healthy, hs]
    · simp [is_interface_healthy, hs, pfLtQ, hm]
  · intro m hm
    by_cases hs : m.status = "down"
    · simp [is_interface_healthy, hs]
    · simp [is_interface_healthy, hs, hm]

/-- Witness for C3 at the configured thresholds: a latency of exactly
100 ms (the configured `latency_max`) is classified unhealthy. -/
theorem claim_C3_health_characterization_witness :
    is_interface_healthy THRESHOLDS
      (some { iface := "ether1", status := "up", latency := PFloat.val 100,
              packet_loss := 0, timestamp := 0 }) = false :=
  (claim_C3_health_characterization THRESHOLDS).2.2.2.1 _ rfl

/-- C4: when the RouterLink priority update for the target interface
fails, `perform_failover` returns false and leaves `current_active`
and `failover_timestamp` (indeed the whole state) unchanged. -/
theorem claim_C4_failed_switch_state_unchanged (upd : String → ℤ → Bool) (now : ℚ)
    (st : FailoverState) (from_i to_i : String) (h : upd to_i 1 = false) :
    (perform_failover upd now st from_i to_i).1 = false
    ∧ (perform_failover upd now st from_i to_i).2.1.current_active = st.current_active
    ∧ (perform_failover upd now st from_i to_i).2.1.failover_timestamp = st.failover_timestamp
    ∧ (perform_failover upd now st from_i to_i).2.1 = st := by
  rw [perform_failover_of_fail upd now st from_i to_i h]
  exact ⟨rfl, rfl, rfl, rfl⟩

/-- Witness for C4: a concrete failed switch from `ether1` to `ether2`
leaves the state untouched. -/
theorem claim_C4_failed_switch_state_unchanged_witness :
    (perform_failover updFalse 500 stPrimaryActive "ether1" "ether2").1 = false
    ∧ (perform_failover updFalse 500 stPrimaryActive "ether1" "ether2").2.1
        = stPrimaryActive :=
  ⟨(claim_C4_failed_switch_state_unchanged updFalse 500 stPrimaryActive "ether1" "ether2"
      rfl).1,
   (claim_C4_failed_switch_state_unchanged updFalse 500 stPrimaryActive "ether1" "ether2"
      rfl).2.2.2⟩

/-- C10: `perform_failover` issues the demotion of the old interface
(distance 10) first and the promotion of the target (distance 1)
second; its result and the resulting state depend only on the target
promotion's boolean outcome — a failed demotion alone still yields a
successful switch. -/
theorem claim_C10_demotion_discarded (upd : String → ℤ → Bool) (now : ℚ)
    (st : FailoverState) (from_i to_i : String) :
    (perform_failover upd now st from_i to_i).2.2 =
      [{ iface := from_i, distance := 10 }, { iface := to_i, distance := 1 }]
    ∧ (perform_failover upd now st from_i to_i).1 = upd to_i 1
    ∧ (upd to_i 1 = true →
        (perform_failover upd now st from_i to_i).2.1 =
          { st with current_active := to_i, failover_timestamp := some now })
    ∧ (upd to_i 1 = false → (perform_failover upd now st from_i to_i).2.1 = st)
    ∧ (∀ upd2 : String → ℤ → Bool, upd2 to_i 1 = upd to_i 1 →
        (perform_failover upd2 now st from_i to_i).1
            = (perform_failover upd now st from_i to_i).1
        ∧ (perform_failover upd2 now st from_i to_i).2.1
            = (perform_failover upd now st from_i to_i).2.1) := by
  cases h : upd to_i 1 with
  | false =>
    rw [perform_failover_of_fail upd now st from_i to_i h]
    refine ⟨rfl, rfl, by simp, fun _ => rfl, ?_⟩
    intro upd2 h2
    rw [perform_failover_of_fail upd2 now st from_i to_i h2]
    exact ⟨rfl, rfl⟩
  | true =>
    rw [perform_failover_of_success upd now st from_i to_i h]
    refine ⟨rfl, rfl, fun _ => rfl, by simp, ?_⟩
    intro upd2 h2
    rw [perform_failover_of_success upd2 now st from_i to_i h2]
    exact ⟨rfl, rfl⟩

/-- C9: the per-interface history kept by `collect_metrics` stays at
1000 entries at most, keeps insertion order with the newest entry
last, and appending to a full history of 1000 entries evicts exactly
the oldest entry, leaving exactly 1000. -/
theorem claim_C9_history_retention (hist : List InterfaceMetrics) (m : InterfaceMetrics)
    (hlen : hist.length ≤ 1000) :
    (historyAppend hist m).length ≤ 1000
    ∧ (historyAppend hist m).getLast? = some m
    ∧ (hist.length < 1000 → historyAppend hist m = hist ++ [m])
    ∧ (hist.length = 1000 →
        historyAppend hist m = hist.tail ++ [m] ∧ (historyAppend hist m).length = 1000) := by
  have hmain : historyAppend hist m =
      if 1000 < hist.length + 1 then (hist ++ [m]).drop (hist.length + 1 - 1000)
      else hist ++ [m] := by
    simp [historyAppend]
  rcases lt_or_eq_of_le hlen with hlt | heq
  · have hcond : ¬ (1000 < hist.length + 1) := by omega
    have heqn : historyAppend hist m = hist ++ [m] := by rw [hmain, if_neg hcond]
    refine ⟨?_, ?_, fun _ => heqn, fun habs => absurd habs (by omega)⟩
    · rw [heqn]
      simp only [List.length_append, List.length_singleton]
      omega
    · rw [heqn]
      exact List.getLast?_concat hist
  · have hcond : 1000 < hist.length + 1 := by omega
    have hdrop : historyAppend hist m = (hist ++ [m]).drop 1 := by
      have harg : hist.length + 1 - 1000 = 1 := by omega
      rw [hmain, if_pos hcond, harg]
    have htail : (hist ++ [m]).drop 1 = hist.drop 1 ++ [m] :=
      List.drop_append_of_le_length (by omega)
    have heq2 : historyAppend hist m = hist.tail ++ [m] := by
      rw [hdrop, htail, List.drop_one]
    have hlen2 : (historyAppend hist m).length = 1000 := by
      rw [heq2]
      simp only [List.length_append, List.length_tail, List.length_singleton]
      omega
    refine ⟨by omega, ?_, fun h => absurd h (by omega), fun _ => ⟨heq2, hlen2⟩⟩
    rw [heq2]
    exact List.getLast?_concat _

/-- Witness for C9: appending a 1001st entry to a full history of 1000
entries leaves exactly 1000 entries with the new entry last. -/
theorem claim_C9_history_retention_witness :
    (historyAppend (List.replicate 1000 (healthy_metrics "ether1" 0))
        (healthy_metrics "ether1" 1)).length = 1000
    ∧ (historyAppend (List.replicate 1000 (healthy_metrics "ether1" 0))
        (healthy_metrics "ether1" 1)).getLast? = some (healthy_metrics "ether1" 1) := by
  have h := claim_C9_history_retention (List.replicate 1000 (healthy_metrics "ether1" 0))
    (healthy_metrics "ether1" 1) (by simp only [List.length_replicate]; omega)
  exact ⟨(h.2.2.2 (by simp only [List.length_replicate])).2, h.2.1⟩

/-- C8: when both interfaces are unhealthy, `evaluate_failover_need`
returns no-failover with the current interface as target and logs the
"both down" warning, and the `process_metrics` round performs no
switch: the manager state is unchanged and no priority updates are
issued. -/
theorem claim_C8_both_down_no_action (th : Thresholds) (upd : String → ℤ → Bool) (now : ℚ)
    (cf : String → Option ℕ) (st : FailoverState)
    (metrics : List (String × InterfaceMetrics))
    (hp : is_interface_healthy th (mLookup metrics st.primary_interface) = false)
    (hs : is_interface_healthy th (mLookup metrics st.secondary_interface) = false)
    (hcur : st.current_active = st.primary_interface
        ∨ st.current_active = st.secondary_interface) :
    evaluate_failover_need th now st (mLookup metrics) = (false, st.current_active, true)
    ∧ (process_metrics th upd now cf st metrics).ifState = st
    ∧ (process_metrics th upd now cf st metrics).attempted = false
    ∧ (process_metrics th upd now cf st metrics).switched = false
    ∧ (process_metrics th upd now cf st metrics).calls = [] := by
  have hch : is_interface_healthy th (mLookup metrics st.current_active) = false := by
    rcases hcur with h | h <;> rw [h] <;> assumption
  have heval : evaluate_failover_need th now st (mLookup metrics)
      = (false, st.current_active, true) := by
    unfold evaluate_failover_need
    simp [hch, hp, hs]
  refine ⟨heval, ?_⟩
  unfold process_metrics
  simp only [heval]
  split
  · simp
  · simp

/-- Witness for C8: with both interfaces down, the round leaves the
manager on the primary interface and flags the warning. -/
theorem claim_C8_both_down_no_action_witness :
    evaluate_failover_need THRESHOLDS 700 stPrimaryActive (mLookup mBothDown)
        = (false, "ether1", true)
    ∧ (process_metrics THRESHOLDS updTrue 700 cfZero stPrimaryActive mBothDown).ifState
        = stPrimaryActive := by
  have h := claim_C8_both_down_no_action THRESHOLDS updTrue 700 cfZero stPrimaryActive
    mBothDown (by decide) (by decide) (Or.inl rfl)
  exact ⟨h.1, h.2.1⟩

/-- Structural case analysis of one `process_metrics` round: no round
ever records a failover event, and either no switch was attempted (the
gate did not trip, or no different target was suggested) and the
manager state is untouched, or a switch was attempted, the old active
interface's counter was reset to 0 unconditionally, and the resulting
state is determined by the target-promotion result alone. -/
theorem process_metrics_cases (th : Thresholds) (upd : String → ℤ → Bool) (now : ℚ)
    (cf : String → Option ℕ) (st : FailoverState)
    (metrics : List (String × InterfaceMetrics)) :
    (process_metrics th upd now cf st metrics).sinkEvents = []
    ∧ ((process_metrics th upd now cf st metrics).attempted = false
        ∧ (process_metrics th upd now cf st metrics).ifState = st
        ∧ (process_metrics th upd now cf st metrics).switched = false
        ∧ (process_metrics th upd now cf st metrics).calls = []
      ∨ (process_metrics th upd now cf st metrics).attempted = true
        ∧ (process_metrics th upd now cf st metrics).evaluated = true
        ∧ (process_metrics th upd now cf st metrics).cf
            = setCF (update_failure_counters th cf metrics) st.current_active 0
        ∧ (evaluate_failover_need th now st (mLookup metrics)).1 = true
        ∧ (evaluate_failover_need th now st (mLookup metrics)).2.1 ≠ st.current_active
        ∧ (process_metrics th upd now cf st metrics).switched
            = upd (evaluate_failover_need th now st (mLookup metrics)).2.1 1
        ∧ ((process_metrics th upd now cf st metrics).switched = true →
            (process_metrics th upd now cf st metrics).ifState
              = { st with
                  current_active := (evaluate_failover_need th now st (mLookup metrics)).2.1
                  failover_timestamp := some now })
        ∧ ((process_metrics th upd now cf st metrics).switched = false →
            (process_metrics th upd now cf st metrics).ifState = st)) := by
  simp only [process_metrics]
  split
  · split
    · rename_i hcond
      cases hu : upd (evaluate_failover_need th now st (mLookup metrics)).2.1 1 with
      | false =>
        rw [perform_failover_of_fail upd now st st.current_active
          (evaluate_failover_need th now st (mLookup metrics)).2.1 hu]
        refine ⟨rfl, Or.inr ⟨rfl, rfl, rfl, hcond.1, hcond.2, rfl, ?_, ?_⟩⟩
        · intro h
          simp at h
        · intro _
          rfl
      | true =>
        rw [perform_failover_of_success upd now st st.current_active
          (evaluate_failover_need th now st (mLookup metrics)).2.1 hu]
        refine ⟨rfl, Or.inr ⟨rfl, rfl, rfl, hcond.1, hcond.2, rfl, ?_, ?_⟩⟩
        · intro _
          rfl
        · intro h
          simp at h
    · exact ⟨rfl, Or.inl ⟨rfl, rfl, rfl, rfl⟩⟩
  · exact ⟨rfl, Or.inl ⟨rfl, rfl, rfl, rfl⟩⟩

/-- Evaluation of `evaluate_failover_need` in the switch-back
situation: current interface healthy, current is the secondary, the
primary healthy, and a truthy failover timestamp — the decision is the
dwell-time comparison alone. -/
theorem evaluate_failover_need_switchback (th : Thresholds) (now : ℚ) (st : FailoverState)
    (metrics : String → Option InterfaceMetrics)
    (hch : is_interface_healthy th (metrics st.current_active) = true)
    (hcur : st.current_active = st.secondary_interface)
    (hph : is_interface_healthy th (metrics st.primary_interface) = true)
    (hts : tsTruthy st.failover_timestamp = true) :
    evaluate_failover_need th now st metrics
      = if now - st.failover_timestamp.getD 0 > th.failover_timeout
        then (true, st.primary_interface, false)
        else (false, st.current_active, false) := by
  have hch2 : is_interface_healthy th (metrics st.secondary_interface) = true := by
    rw [← hcur]
    exact hch
  unfold evaluate_failover_need
  rw [hcur]
  simp [hch2, hph, hts]

/-- C1 (the claim is the documented intent; the code diverges):
with the secondary interface active and healthy, the primary healthy
again, `failover_timestamp = 1000` and `failover_timeout = 60`,
running the per-tick round at `t = 1030` and `t = 1061` produces no
switch back to the primary at either tick — `evaluate_failover_need`
is never even invoked, because the healthy secondary's
consecutive-failure counter stays at 0, below the gate threshold of 3 —
even though `evaluate_failover_need` itself, called directly on the
`t = 1061` metrics, does signal the switch back to the primary (and
declines it at `t = 1030`). -/
theorem claim_C1_switchback_unreachable :
    (runRounds THRESHOLDS updTrue cfZero stSwitchback
        [(1030, mRound30), (1061, mRound61)]).2.1 = stSwitchback
    ∧ ((runRounds THRESHOLDS updTrue cfZero stSwitchback
        [(1030, mRound30), (1061, mRound61)]).2.2.map
          (fun r => (r.evaluated, r.attempted, r.switched)))
        = [(false, false, false), (false, false, false)]
    ∧ evaluate_failover_need THRESHOLDS 1030 stSwitchback (mLookup mRound30)
        = (false, "ether2", false)
    ∧ evaluate_failover_need THRESHOLDS 1061 stSwitchback (mLookup mRound61)
        = (true, "ether1", false) := by
  have h30 : evaluate_failover_need THRESHOLDS 1030 stSwitchback (mLookup mRound30)
      = (false, "ether2", false) := by
    rw [evaluate_failover_need_switchback THRESHOLDS 1030 stSwitchback (mLookup mRound30)
      (by decide) rfl (by decide) (by decide)]
    rw [if_neg]
    · rfl
    · norm_num [stSwitchback, THRESHOLDS]
  have h61 : evaluate_failover_need THRESHOLDS 1061 stSwitchback (mLookup mRound61)
      = (true, "ether1", false) := by
    rw [evaluate_failover_need_switchback THRESHOLDS 1061 stSwitchback (mLookup mRound61)
      (by decide) rfl (by decide) (by decide)]
    rw [if_pos]
    · rfl
    · norm_num [stSwitchback, THRESHOLDS]
  exact ⟨by decide, by decide, h30, h61⟩

/-- C2 counterexample: a round with the gate tripped (two prior
failures of the active primary plus this round's failure), a healthy
secondary, and a RouterLink whose priority updates fail: the switch
attempt fails and the state is unchanged, yet the primary's
consecutive-failure counter IS reset to 0 — refuting the claim that
the counter is not reset on a failed switch. -/
theorem claim_C2_counterexample :
    (process_metrics THRESHOLDS updFalse 500 cfTwoPrimary stPrimaryActive
        mPrimaryDown).attempted = true
    ∧ (process_metrics THRESHOLDS updFalse 500 cfTwoPrimary stPrimaryActive
        mPrimaryDown).switched = false
    ∧ (process_metrics THRESHOLDS updFalse 500 cfTwoPrimary stPrimaryActive
        mPrimaryDown).ifState = stPrimaryActive
    ∧ (process_metrics THRESHOLDS updFalse 500 cfTwoPrimary stPrimaryActive
        mPrimaryDown).cf "ether1" = some 0 := by
  decide

/-- C2 amended: whenever a switch is attempted, the active interface's
consecutive-failure counter is reset to 0 regardless of the RouterLink
result; on a failed attempt `current_active` and `failover_timestamp`
are unchanged, but the gate condition does not persist — the counter
must re-accumulate to the threshold before the engine retries. -/
theorem claim_C2_amended_reset_on_attempt (th : Thresholds) (upd : String → ℤ → Bool)
    (now : ℚ) (cf : String → Option ℕ) (st : FailoverState)
    (metrics : List (String × InterfaceMetrics))
    (hatt : (process_metrics th upd now cf st metrics).attempted = true) :
    (process_metrics th upd now cf st metrics).cf st.current_active = some 0
    ∧ ((process_metrics th upd now cf st metrics).switched = false →
        (process_metrics th upd now cf st metrics).ifState = st) := by
  rcases (process_metrics_cases th upd now cf st metrics).2 with
    ⟨hf, _⟩ | ⟨_, _, hcf, _, _, _, _, hfail⟩
  · rw [hf] at hatt
    cases hatt
  · constructor
    · rw [hcf]
      simp [setCF]
    · exact hfail

/-- Witness for C2 amended: the failed-switch round of the
counterexample scenario, recovered through the amended theorem. -/
theorem claim_C2_amended_reset_on_attempt_witness :
    (process_metrics THRESHOLDS updFalse 500 cfTwoPrimary stPrimaryActive
        mPrimaryDown).cf "ether1" = some 0
    ∧ (process_metrics THRESHOLDS updFalse 500 cfTwoPrimary stPrimaryActive
        mPrimaryDown).ifState = stPrimaryActive := by
  have h := claim_C2_amended_reset_on_attempt THRESHOLDS updFalse 500 cfTwoPrimary
    stPrimaryActive mPrimaryDown (by decide)
  exact ⟨h.1, h.2 (by decide)⟩

/-- C7 counterexample: a successful switch (primary down three
consecutive rounds, secondary healthy, RouterLink updates succeed)
updates `current_active` and `failover_timestamp`, but the round
records NO failover event — refuting the claim that a FailoverEvent is
recorded on every successful switch. -/
theorem claim_C7_counterexample :
    (process_metrics THRESHOLDS updTrue 500 cfTwoPrimary stPrimaryActive
        mPrimaryDown).switched = true
    ∧ (process_metrics THRESHOLDS updTrue 500 cfTwoPrimary stPrimaryActive
        mPrimaryDown).ifState.current_active = "ether2"
    ∧ (process_metrics THRESHOLDS updTrue 500 cfTwoPrimary stPrimaryActive
        mPrimaryDown).ifState.failover_timestamp = some 500
    ∧ (process_metrics THRESHOLDS updTrue 500 cfTwoPrimary stPrimaryActive
        mPrimaryDown).sinkEvents = [] := by
  decide

/-- C7 amended: on every successful switch, `current_active` becomes
the evaluated target (different from the old active interface) and
`failover_timestamp` is set to the current time, but no FailoverEvent
is recorded: the engine never writes to the failover-events store. -/
theorem claim_C7_amended_no_event_recorded (th : Thresholds) (upd : String → ℤ → Bool)
    (now : ℚ) (cf : String → Option ℕ) (st : FailoverState)
    (metrics : List (String × InterfaceMetrics))
    (hsw : (process_metrics th upd now cf st metrics).switched = true) :
    (process_metrics th upd now cf st metrics).ifState.current_active
        = (evaluate_failover_need th now st (mLookup metrics)).2.1
    ∧ (process_metrics th upd now cf st metrics).ifState.current_active
        ≠ st.current_active
    ∧ (process_metrics th upd now cf st metrics).ifState.failover_timestamp = some now
    ∧ (process_metrics th upd now cf st metrics).sinkEvents = [] := by
  have hev := (process_metrics_cases th upd now cf st metrics).1
  rcases (process_metrics_cases th upd now cf st metrics).2 with
    ⟨_, _, hf, _⟩ | ⟨_, _, _, _, hne, _, hsucc, _⟩
  · rw [hf] at hsw
    cases hsw
  · rw [hsucc hsw]
    exact ⟨rfl, hne, rfl, hev⟩

/-- Witness for C7 amended: the successful-switch round of the
counterexample scenario, recovered through the amended theorem. -/
theorem claim_C7_amended_no_event_recorded_witness :
    (process_metrics THRESHOLDS updTrue 500 cfTwoPrimary stPrimaryActive
        mPrimaryDown).ifState.failover_timestamp = some 500
    ∧ (process_metrics THRESHOLDS updTrue 500 cfTwoPrimary stPrimaryActive
        mPrimaryDown).sinkEvents = [] := by
  have h := claim_C7_amended_no_event_recorded THRESHOLDS updTrue 500 cfTwoPrimary
    stPrimaryActive mPrimaryDown (by decide)
  exact ⟨h.2.2.1, h.2.2.2⟩

/-- C6 counterexample: an up interface with two ping targets, the
first answering all five probes in 20 ms and the second answering
none (while its ping invocation still returns a result dictionary).
Per the claim, the aggregate latency should be the mean over targets
with at least one successful ping, i.e. 20 ms; the code includes the
zero-success target with average latency `float('inf')`, so the
aggregate is `inf`, not 20. -/
theorem claim_C6_counterexample :
    (check_interface_connectivity 5 repliesAll20).avg_latency = PFloat.val 20
    ∧ (check_interface_connectivity 5 repliesAll20).received = 5
    ∧ (check_interface_connectivity 5 repliesNone).received = 0
    ∧ (check_interface_connectivity 5 repliesNone).avg_latency = PFloat.inf
    ∧ (get_interface_metrics "ether1" 0 (some "true")
        [some repliesAll20, some repliesNone]).latency = PFloat.inf
    ∧ (get_interface_metrics "ether1" 0 (some "true")
        [some repliesAll20, some repliesNone]).latency ≠ PFloat.val 20 := by
  have h20 : repliesAll20.filterMap id = [(20:ℚ), 20, 20, 20, 20] := rfl
  have havg : (check_interface_connectivity 5 repliesAll20).avg_latency
      = PFloat.val 20 := by
    simp only [check_interface_connectivity, h20]
    norm_num
  have hnone : (check_interface_connectivity 5 repliesNone).avg_latency = PFloat.inf := rfl
  have hres : ([some repliesAll20, some repliesNone].filterMap
      (Option.map (check_interface_connectivity 5)))
      = [check_interface_connectivity 5 repliesAll20,
         check_interface_connectivity 5 repliesNone] := rfl
  have hlat : (get_interface_metrics "ether1" 0 (some "true")
      [some repliesAll20, some repliesNone]).latency = PFloat.inf := by
    simp only [get_interface_metrics, hres]
    rw [if_neg (by simp)]
    simp only [List.map_cons, List.map_nil, hnone]
    rw [if_pos (by simp)]
    rw [show pfSum [(check_interface_connectivity 5 repliesAll20).avg_latency, PFloat.inf]
        = PFloat.inf from foldl_pfAdd_mem_inf _ _ (by simp)]
    rfl
  refine ⟨havg, rfl, rfl, hnone, hlat, ?_⟩
  rw [hlat]
  simp

/-- C6 amended: for an up interface, a target's ping invocation that
returns a result always contributes to both aggregates — a target with
no successful pings contributes average latency `inf` (the
per-target average is `inf` exactly when no reply carried a time), so
the aggregate latency is `inf` whenever any responding target had no
successful ping, and equals the arithmetic mean of the per-target
averages when all responding targets had at least one success; the
aggregate packet loss is the arithmetic mean of the per-target loss
percentages over responding targets; when no target yields a result,
latency is `inf` and packet loss 100. -/
theorem claim_C6_amended_zero_success_included (iface : String) (now : ℚ)
    (pingReplies : List (Option (List (Option ℚ)))) :
    (∀ replies : List (Option ℚ),
        (check_interface_connectivity 5 replies).avg_latency = PFloat.inf
          ↔ replies.filterMap id = [])
    ∧ (pingReplies.filterMap (Option.map (check_interface_connectivity 5)) = [] →
        (get_interface_metrics iface now (some "true") pingReplies).latency = PFloat.inf
        ∧ (get_interface_metrics iface now (some "true") pingReplies).packet_loss = 100)
    ∧ (pingReplies.filterMap (Option.map (check_interface_connectivity 5)) ≠ [] →
        (get_interface_metrics iface now (some "true") pingReplies).packet_loss
          = ((pingReplies.filterMap (Option.map (check_interface_connectivity 5))).map
              (fun r => r.packet_loss)).sum
            / (pingReplies.filterMap (Option.map (check_interface_connectivity 5))).length)
    ∧ (PFloat.inf ∈ (pingReplies.filterMap
          (Option.map (check_interface_connectivity 5))).map (fun r => r.avg_latency) →
        (get_interface_metrics iface now (some "true") pingReplies).latency = PFloat.inf)
    ∧ (∀ qs : List ℚ,
        (pingReplies.filterMap (Option.map (check_interface_connectivity 5))).map
            (fun r => r.avg_latency) = qs.map PFloat.val →
        pingReplies.filterMap (Option.map (check_interface_connectivity 5)) ≠ [] →
        (get_interface_metrics iface now (some "true") pingReplies).latency
          = PFloat.val (qs.sum / qs.length)) := by
  refine ⟨?_, ?_, ?_, ?_, ?_⟩
  · intro replies
    simp only [check_interface_connectivity]
    by_cases hr : replies.filterMap id = []
    · simp [hr]
    · have : (replies.filterMap id).length ≠ 0 := by
        simpa [List.length_eq_zero] using hr
      simp [this, hr]
  · intro hres
    simp [get_interface_metrics, hres]
  · intro hres
    have hlen : (pingReplies.filterMap
        (Option.map (check_interface_connectivity 5))).length ≠ 0 := by
      simpa [List.length_eq_zero] using hres
    simp [get_interface_metrics, hlen]
  · intro hmem
    have hlen : ((pingReplies.filterMap (Option.map (check_interface_connectivity 5))).map
        (fun r => r.avg_latency)).length ≠ 0 := by
      intro h0
      rw [List.length_eq_zero] at h0
      rw [h0] at hmem
      cases hmem
    simp only [get_interface_metrics]
    rw [if_neg (by simp)]
    simp only [List.length_map] at hlen ⊢
    rw [if_pos (by simpa using hlen)]
    rw [show pfSum ((pingReplies.filterMap (Option.map (check_interface_connectivity 5))).map
        (fun r => r.avg_latency)) = PFloat.inf from foldl_pfAdd_mem_inf _ _ hmem]
    rfl
  · intro qs hqs hres
    have hlen : (pingReplies.filterMap
        (Option.map (check_interface_connectivity 5))).length ≠ 0 := by
      simpa [List.length_eq_zero] using hres
    have hlenq : (pingReplies.filterMap (Option.map (check_interface_connectivity 5))).length
        = qs.length := by
      have := congrArg List.length hqs
      simpa using this
    simp only [get_interface_metrics]
    rw [if_neg (by simp)]
    rw [if_pos (by simpa using hlen)]
    rw [hqs, pfSum_map_val]
    simp only [List.length_map, hlenq]
    rfl

/-- Witness for C6 amended: a zero-success target makes the concrete
aggregate latency infinite; with no responding target at all the
aggregates degrade to `inf` and 100; two targets each averaging 20 ms
aggregate to exactly 20 ms. -/
theorem claim_C6_amended_zero_success_included_witness :
    (get_interface_metrics "ether1" 0 (some "true")
        [some repliesAll20, some repliesNone]).latency = PFloat.inf
    ∧ (get_interface_metrics "ether1" 0 (some "true") [none, none]).latency = PFloat.inf
    ∧ (get_interface_metrics "ether1" 0 (some "true") [none, none]).packet_loss = 100
    ∧ (get_interface_metrics "ether1" 0 (some "true")
        [some repliesAll20, some repliesAll20]).latency = PFloat.val 20 := by
  have h1 := claim_C6_amended_zero_success_included "ether1" 0
    [some repliesAll20, some repliesNone]
  have h2 := claim_C6_amended_zero_success_included "ether1" 0 ([none, none])
  have h3 := claim_C6_amended_zero_success_included "ether1" 0
    [some repliesAll20, some repliesAll20]
  have havg : (check_interface_connectivity 5 repliesAll20).avg_latency
      = PFloat.val 20 := by
    simp only [check_interface_connectivity, show repliesAll20.filterMap id
      = [(20:ℚ), 20, 20, 20, 20] from rfl]
    norm_num
  have hmem : PFloat.inf ∈ ([some repliesAll20, some repliesNone].filterMap
      (Option.map (check_interface_connectivity 5))).map (fun r => r.avg_latency) := by
    rw [show ([some repliesAll20, some repliesNone].filterMap
        (Option.map (check_interface_connectivity 5)))
        = [check_interface_connectivity 5 repliesAll20,
           check_interface_connectivity 5 repliesNone] from rfl]
    simp [show (check_interface_connectivity 5 repliesNone).avg_latency
      = PFloat.inf from rfl]
  have hmean : (get_interface_metrics "ether1" 0 (some "true")
      [some repliesAll20, some repliesAll20]).latency = PFloat.val 20 := by
    have hm := h3.2.2.2.2 ([20, 20]) (by simp [havg]) (by simp)
    rw [hm]
    norm_num
  exact ⟨h1.2.2.2.1 hmem, (h2.2.1 rfl).1, (h2.2.1 rfl).2, hmean⟩

/-- Witness for C10: with a RouterLink that fails the demotion of
`ether1` but succeeds on the promotion of `ether2`, the switch
succeeds. -/
theorem claim_C10_demotion_discarded_witness :
    (perform_failover (fun s _ => s == "ether2") 500 stPrimaryActive "ether1" "ether2").2.1
      = { stPrimaryActive with
          current_active := "ether2"
          failover_timestamp := some 500 }
    ∧ (fun s (_ : ℤ) => s == "ether2") "ether1" 10 = false :=
  ⟨(claim_C10_demotion_discarded (fun s _ => s == "ether2") 500 stPrimaryActive
      "ether1" "ether2").2.2.1 rfl,
   rfl⟩

/-- Effect of the counter-tracking loop on the active interface when a
check_interfaces-shaped metrics pair reports the active interface
unhealthy: its counter becomes its previous value (0 when untracked)
plus one. -/
theorem update_counters_pair_active (th : Thresholds) (cf : String → Option ℕ)
    (st : FailoverState) (pr : InterfaceMetrics × InterfaceMetrics)
    (hne : st.primary_interface ≠ st.secondary_interface)
    (hcur : st.current_active = st.primary_interface
        ∨ st.current_active = st.secondary_interface)
    (hbad : is_interface_healthy th (some (activeOf st pr)) = false) :
    update_failure_counters th cf (roundMetrics st pr) st.current_active
      = some ((cf st.current_active).getD 0 + 1) := by
  rcases hcur with hc | hc
  · have hact : activeOf st pr = pr.1 := by simp [activeOf, hc]
    rw [hact] at hbad
    simp only [update_failure_counters, roundMetrics, List.foldl_cons, List.foldl_nil]
    rw [hc]
    simp [setCF, hbad, hne]
  · have hick : st.current_active ≠ st.primary_interface := by
      rw [hc]
      exact Ne.symm hne
    have hact : activeOf st pr = pr.2 := by simp [activeOf, hick]
    rw [hact] at hbad
    simp only [update_failure_counters, roundMetrics, List.foldl_cons, List.foldl_nil]
    rw [hc]
    simp [setCF, hbad, Ne.symm hne]

/-- One `process_metrics` round in which the active interface is
unhealthy: failover evaluation is invoked exactly when the incremented
counter reaches the `consecutive_failures` threshold, and below the
threshold the round changes nothing except the counter. -/
theorem process_round_unhealthy (th : Thresholds) (upd : String → ℤ → Bool) (now : ℚ)
    (cf : String → Option ℕ) (st : FailoverState) (pr : InterfaceMetrics × InterfaceMetrics)
    (hne : st.primary_interface ≠ st.secondary_interface)
    (hcur : st.current_active = st.primary_interface
        ∨ st.current_active = st.secondary_interface)
    (hbad : is_interface_healthy th (some (activeOf st pr)) = false) :
    ((process_metrics th upd now cf st (roundMetrics st pr)).evaluated
        = decide (th.consecutive_failures ≤ (cf st.current_active).getD 0 + 1))
    ∧ ((cf st.current_active).getD 0 + 1 < th.consecutive_failures →
        (process_metrics th upd now cf st (roundMetrics st pr)).cf st.current_active
            = some ((cf st.current_active).getD 0 + 1)
        ∧ (process_metrics th upd now cf st (roundMetrics st pr)).ifState = st
        ∧ (process_metrics th upd now cf st (roundMetrics st pr)).attempted = false
        ∧ (process_metrics th upd now cf st (roundMetrics st pr)).switched = false
        ∧ (process_metrics th upd now cf st (roundMetrics st pr)).calls = []) := by
  have hcf1 := update_counters_pair_active th cf st pr hne hcur hbad
  constructor
  · by_cases hT : th.consecutive_failures ≤ (cf st.current_active).getD 0 + 1
    · simp only [process_metrics, hcf1]
      rw [if_pos (by simpa using hT)]
      split
      · simp [hT]
      · simp [hT]
    · simp only [process_metrics, hcf1]
      rw [if_neg (by simpa using hT)]
      simp [hT]
  · intro hlt
    have hT : ¬ (th.consecutive_failures ≤ (cf st.current_active).getD 0 + 1) := by omega
    simp only [process_metrics, hcf1]
    rw [if_neg (by simpa using hT)]
    exact ⟨hcf1, rfl, rfl, rfl, rfl⟩

/-- Iterated rounds with the active interface unhealthy throughout:
as long as the counter stays within the threshold, each round's trace
shows evaluation exactly when the running count reaches the threshold,
and sub-threshold rounds change nothing. -/
theorem runRounds_unhealthy_traces (th : Thresholds) (upd : String → ℤ → Bool)
    (st : FailoverState)
    (hne : st.primary_interface ≠ st.secondary_interface)
    (hcur : st.current_active = st.primary_interface
        ∨ st.current_active = st.secondary_interface) :
    ∀ (rounds : List (ℚ × (InterfaceMetrics × InterfaceMetrics))) (cf : String → Option ℕ),
      (∀ r ∈ rounds, is_interface_healthy th (some (activeOf st r.2)) = false) →
      (cf st.current_active).getD 0 + rounds.length ≤ th.consecutive_failures →
      (runRounds th upd cf st (rounds.map (fun r => (r.1, roundMetrics st r.2)))).2.2.length
          = rounds.length
      ∧ (∀ k tr, (runRounds th upd cf st (rounds.map
            (fun r => (r.1, roundMetrics st r.2)))).2.2.get? k = some tr →
          (tr.evaluated = decide (th.consecutive_failures
              ≤ (cf st.current_active).getD 0 + k + 1))
          ∧ ((cf st.current_active).getD 0 + k + 1 < th.consecutive_failures →
              tr.attempted = false ∧ tr.switched = false ∧ tr.ifState = st
              ∧ tr.calls = [])) := by
  intro rounds
  induction rounds with
  | nil =>
    intro cf _ _
    exact ⟨rfl, fun k tr h => nomatch h⟩
  | cons hd tl ih =>
    intro cf hbad hbound
    have hstep := process_round_unhealthy th upd hd.1 cf st hd.2 hne hcur
      (hbad hd (by simp))
    simp only [List.map_cons, runRounds]
    by_cases htl : tl = []
    · subst htl
      refine ⟨rfl, ?_⟩
      intro k tr h
      cases k with
      | zero =>
        simp only [List.map_nil, runRounds, List.get?] at h
        injection h with h
        subst h
        constructor
        · simpa using hstep.1
        · intro hlt
          have h2 := hstep.2 (by omega)
          exact ⟨h2.2.2.1, h2.2.2.2.1, h2.2.1, h2.2.2.2.2⟩
      | succ j =>
        simp only [List.map_nil, runRounds, List.get?] at h
        exact nomatch h
    · have hlen1 : 1 ≤ tl.length := by
        cases tl with
        | nil => exact absurd rfl htl
        | cons a b => simp
      have hbound1 : (cf st.current_active).getD 0 + (1 + tl.length)
          ≤ th.consecutive_failures := by
        simpa [Nat.add_comm] using hbound
      have hlt : (cf st.current_active).getD 0 + 1 < th.consecutive_failures := by
        omega
      obtain ⟨hcf2, hst2, hatt2, hsw2, hcalls2⟩ := hstep.2 hlt
      rw [hst2]
      have hcfval : ((process_metrics th upd hd.1 cf st
          (roundMetrics st hd.2)).cf st.current_active).getD 0
          = (cf st.current_active).getD 0 + 1 := by
        rw [hcf2]
        rfl
      have ihy := ih ((process_metrics th upd hd.1 cf st (roundMetrics st hd.2)).cf)
        (fun r hr => hbad r (List.mem_cons_of_mem hd hr))
        (by rw [hcfval]; omega)
      refine ⟨?_, ?_⟩
      · simp only [List.length_cons]
        rw [ihy.1]
      · intro k tr h
        cases k with
        | zero =>
          simp only [List.get?] at h
          injection h with h
          subst h
          constructor
          · simpa using hstep.1
          · intro hlt0
            exact ⟨hatt2, hsw2, hst2, hcalls2⟩
        | succ j =>
          simp only [List.get?] at h
          have hj := ihy.2 j tr h
          constructor
          · have harith : (cf st.current_active).getD 0 + 1 + j + 1
                = (cf st.current_active).getD 0 + (j + 1) + 1 := by omega
            rw [hj.1, hcfval, harith]
          · intro hlt2
            refine hj.2 ?_
            rw [hcfval]
            omega

/-- C5: starting from a zero (or untracked) counter for the active
interface, over N consecutive rounds in which the active interface is
unhealthy, with N equal to the `consecutive_failures` threshold,
`process_metrics` invokes `evaluate_failover_need` on round N and
never on any earlier round; while the counter is strictly below the
threshold no evaluation, no switch and no priority update happens and
the manager state is unchanged. -/
theorem claim_C5_gate_trips_on_round_N (th : Thresholds) (upd : String → ℤ → Bool)
    (st : FailoverState) (cf0 : String → Option ℕ)
    (rounds : List (ℚ × (InterfaceMetrics × InterfaceMetrics)))
    (hne : st.primary_interface ≠ st.secondary_interface)
    (hcur : st.current_active = st.primary_interface
        ∨ st.current_active = st.secondary_interface)
    (hT : 1 ≤ th.consecutive_failures)
    (hcf : (cf0 st.current_active).getD 0 = 0)
    (hlen : rounds.length = th.consecutive_failures)
    (hbad : ∀ r ∈ rounds, is_interface_healthy th (some (activeOf st r.2)) = false) :
    (runRounds th upd cf0 st (rounds.map (fun r => (r.1, roundMetrics st r.2)))).2.2.length
        = th.consecutive_failures
    ∧ (∀ k tr, (runRounds th upd cf0 st (rounds.map
          (fun r => (r.1, roundMetrics st r.2)))).2.2.get? k = some tr →
        (tr.evaluated = true ↔ k + 1 = th.consecutive_failures))
    ∧ (∀ k tr, (runRounds th upd cf0 st (rounds.map
          (fun r => (r.1, roundMetrics st r.2)))).2.2.get? k = some tr →
        k + 1 < th.consecutive_failures →
        tr.evaluated = false ∧ tr.attempted = false ∧ tr.switched = false
        ∧ tr.ifState = st ∧ tr.calls = [])
    ∧ (∃ tr, (runRounds th upd cf0 st (rounds.map
          (fun r => (r.1, roundMetrics st r.2)))).2.2.get?
            (th.consecutive_failures - 1) = some tr
        ∧ tr.evaluated = true) := by
  obtain ⟨hlength, htr⟩ := runRounds_unhealthy_traces th upd st hne hcur rounds cf0 hbad
    (by rw [hcf, hlen]; omega)
  refine ⟨by rw [hlength, hlen], ?_, ?_, ?_⟩
  · intro k tr h
    obtain ⟨hklt, -⟩ := List.get?_eq_some.mp h
    rw [hlength, hlen] at hklt
    have he := (htr k tr h).1
    rw [hcf] at he
    constructor
    · intro hev
      have := of_decide_eq_true (he.symm.trans hev)
      omega
    · intro heq
      rw [he]
      exact decide_eq_true (by omega)
  · intro k tr h hklt
    have h2 := htr k tr h
    have he := h2.1
    rw [hcf] at he
    have h3 := h2.2 (by rw [hcf]; omega)
    refine ⟨?_, h3.1, h3.2.1, h3.2.2.1, h3.2.2.2⟩
    rw [he]
    exact decide_eq_false (by omega)
  · have hidx : th.consecutive_failures - 1 < (runRounds th upd cf0 st (rounds.map
        (fun r => (r.1, roundMetrics st r.2)))).2.2.length := by
      rw [hlength, hlen]
      omega
    refine ⟨_, List.get?_eq_get hidx, ?_⟩
    have he := (htr _ _ (List.get?_eq_get hidx)).1
    rw [hcf] at he
    rw [he]
    exact decide_eq_true (by omega)

/-- Witness for C5 at the configured threshold of 3: three rounds of a
down primary and healthy secondary produce exactly three traces, with
the evaluation firing on the third. -/
theorem claim_C5_gate_trips_on_round_N_witness :
    (runRounds THRESHOLDS updTrue cfNone stPrimaryActive
        (roundsC5.map (fun r => (r.1, roundMetrics stPrimaryActive r.2)))).2.2.length = 3
    ∧ (∃ tr, (runRounds THRESHOLDS updTrue cfNone stPrimaryActive
        (roundsC5.map (fun r => (r.1, roundMetrics stPrimaryActive r.2)))).2.2.get? 2
          = some tr ∧ tr.evaluated = true) := by
  have h := claim_C5_gate_trips_on_round_N THRESHOLDS updTrue stPrimaryActive cfNone
    roundsC5 (by decide) (Or.inl rfl) (by decide) rfl (by decide) (by decide)
  exact ⟨h.1, h.2.2.2⟩

end NetworkFailover
